/-
Verification of the axiom python-client mock token store
(`python-client/axiom/testing.py`, models from `python-client/axiom/models.py`)
against its natural-language specification.

Modelling conventions:
* Python floats are modelled as rationals (ℚ); none of the verified code
  paths perform float-specific arithmetic (values are only stored, compared
  and sorted).
* A Python `Dict[str, float]` argument is an association list
  `List (String × ℚ)`; `d.get(k, 0.0)` is `dget d k`; Python truthiness of
  an `Optional[Dict]` (`if l1_physical:`) is `none`/empty-list falsy.
* The insertion-ordered Python dict `_tokens_store` is an association list
  `List (Nat × Token)`; assignment to an existing key keeps its position
  (`storeSet`), deletion removes it (`storeDel`), iteration order is list
  order (`storeValues`).
* `random.uniform(0.7, 1.0)` in `query` is an explicit per-iteration
  score oracle `sim : Nat → ℚ`. The `Token(...)` call of `create` evaluates
  `datetime.now(datetime.UTC)` (testing.py line 142); `testing.py` imports
  the `datetime` class, which has no `UTC` attribute, so every `create`
  call raises `AttributeError` after the counter increment and before any
  token is constructed or stored — `create` is modelled as exactly that
  error path.
* Python exceptions are `Except ApiErr`; an operation that can raise
  returns its result together with the client state as it is when the
  function terminates (unchanged on the raise paths, which in the source
  all occur before any write).
-/
import Mathlib

namespace Mock

/-- Error values raised by the client: `NotFoundError` (from
`exceptions.py`, carrying a message and an error code), the `InvalidRange`
error kind that the specification assigns to the identity codec, and the
Python builtin `AttributeError` that `create` raises at
`datetime.now(datetime.UTC)` (the `datetime` class has no `UTC`
attribute). -/
inductive ApiErr where
  | notFound (msg : String) (code : String)
  | invalidRange (msg : String)
  | attributeError (msg : String)
deriving DecidableEq, Repr

/-- Lookup in a Python string-keyed float dict: `d.get(k, 0.0)`. -/
def dget (d : List (String × ℚ)) (k : String) : ℚ :=
  match d.find? (fun p => p.1 == k) with
  | some p => p.2
  | none => 0

/-- A 3-component coordinate vector `[x, y, z]`. -/
structure Vec3 where
  x : ℚ
  y : ℚ
  z : ℚ
deriving DecidableEq, Repr

/-- The vector `[d.get("x", 0.0), d.get("y", 0.0), d.get("z", 0.0)]` built
from a coordinate dict. -/
def vecOfDict (d : List (String × ℚ)) : Vec3 :=
  ⟨dget d "x", dget d "y", dget d "z"⟩

/-- The eight coordinate layers `L1..L8`. -/
inductive Layer where
  | L1 | L2 | L3 | L4 | L5 | L6 | L7 | L8
deriving DecidableEq, Repr

/-- The `coordinates` mapping of a token: each of the eight layer keys is
present, holding either a vector or `None` (absent layer). -/
structure Coords where
  l1 : Option Vec3
  l2 : Option Vec3
  l3 : Option Vec3
  l4 : Option Vec3
  l5 : Option Vec3
  l6 : Option Vec3
  l7 : Option Vec3
  l8 : Option Vec3
deriving DecidableEq, Repr

/-- Access one layer of a `coordinates` mapping. -/
def Coords.layer (c : Coords) : Layer → Option Vec3
  | .L1 => c.l1
  | .L2 => c.l2
  | .L3 => c.l3
  | .L4 => c.l4
  | .L5 => c.l5
  | .L6 => c.l6
  | .L7 => c.l7
  | .L8 => c.l8

/-- Uppercase hex digit for a value below 16 (`0`–`9`, `A`–`F`). -/
def hexDigitChar (n : Nat) : Char :=
  if n < 10 then Char.ofNat (48 + n) else Char.ofNat (55 + n)

/-- Hex digits of `n`, most significant first (fuel-driven recursion). -/
def hexDigitsAux : Nat → Nat → List Char
  | 0, _ => []
  | fuel + 1, n => if n = 0 then [] else hexDigitsAux fuel (n / 16) ++ [hexDigitChar (n % 16)]

/-- Uppercase hex rendering of a natural number. -/
def toHexUpper (n : Nat) : String :=
  if n = 0 then "0" else String.mk (hexDigitsAux n n)

/-- Python's `f"0x◄id:08X►"` format: `0x` followed by the uppercase hex
digits padded with zeros to at least eight characters. -/
def hex08X (n : Nat) : String :=
  let s := toHexUpper n
  let pad := if s.length < 8 then String.mk (List.replicate (8 - s.length) '0') else ""
  "0x" ++ pad ++ s

/-- A token record (`Token` pydantic model, `models.py`). The
`flags` dict always holds exactly the keys `active` and `persistent`, so it
is modelled by two boolean fields. -/
structure Token where
  id : Nat
  id_hex : String
  local_id : Nat
  entity_type : Nat
  domain : Nat
  weight : ℚ
  field_radius : ℚ
  field_strength : ℚ
  timestamp : Nat
  age_seconds : Nat
  flags_active : Bool
  flags_persistent : Bool
  coordinates : Coords
deriving DecidableEq, Repr

/-- A query result (`TokenQueryResult` pydantic model, `models.py`). -/
structure TokenQueryResult where
  token_id : Option Nat
  label : String
  score : ℚ
  entity_type : String
  coordinates : Option Coords
deriving DecidableEq, Repr

/-- The insertion-ordered token dict `_tokens_store`. -/
abbrev Store := List (Nat × Token)

/-- Python `store[k]` lookup (as an `Option`). -/
def storeGet (s : Store) (k : Nat) : Option Token :=
  match s.find? (fun p => p.1 == k) with
  | some p => some p.2
  | none => none

/-- Python `store[k] = v`: overwrite in place when the key exists (keeping
its position), otherwise append at the end. -/
def storeSet (s : Store) (k : Nat) (v : Token) : Store :=
  if s.any (fun p => p.1 == k) then
    s.map (fun p => if p.1 == k then (k, v) else p)
  else
    s ++ [(k, v)]

/-- Python `del store[k]`. -/
def storeDel (s : Store) (k : Nat) : Store :=
  s.filter (fun p => !(p.1 == k))

/-- Python `list(store.values())`: values in insertion order. -/
def storeValues (s : Store) : List Token :=
  s.map (fun p => p.2)

/-- The mutable state of a `MockAxiomClient`: the token dict and the id
allocation counter `_next_token_id`. -/
structure ClientState where
  tokens_store : Store
  next_token_id : Nat
deriving DecidableEq, Repr

/-- A freshly constructed `MockAxiomClient`: empty store, counter at 1. -/
def initialState : ClientState := ⟨[], 1⟩

/-- Arguments of `MockTokensClient.create`, with the source's defaults. -/
structure CreateArgs where
  entity_type : Nat := 0
  domain : Nat := 0
  weight : ℚ := 1 / 2
  field_radius : ℚ := 1
  field_strength : ℚ := 1
  persistent : Bool := false
  l1_physical : Option (List (String × ℚ)) := none
  l2_sensory : Option (List (String × ℚ)) := none
  l3_motor : Option (List (String × ℚ)) := none
  l4_emotional : Option (List (String × ℚ)) := none
  l5_cognitive : Option (List (String × ℚ)) := none
  l6_social : Option (List (String × ℚ)) := none
  l7_temporal : Option (List (String × ℚ)) := none
  l8_abstract : Option (List (String × ℚ)) := none
deriving Repr

/-- The `create` expression `[d.get("x",0.0), d.get("y",0.0), d.get("z",0.0)]
if d else None`: `None` and the empty dict are falsy and give an absent
layer; a non-empty dict gives its vector. -/
def coordOfArg : Option (List (String × ℚ)) → Option Vec3
  | none => none
  | some d => if d.isEmpty then none else some (vecOfDict d)

/-- The layer argument of `create` for a given layer. -/
def CreateArgs.layerArg (a : CreateArgs) : Layer → Option (List (String × ℚ))
  | .L1 => a.l1_physical
  | .L2 => a.l2_sensory
  | .L3 => a.l3_motor
  | .L4 => a.l4_emotional
  | .L5 => a.l5_cognitive
  | .L6 => a.l6_social
  | .L7 => a.l7_temporal
  | .L8 => a.l8_abstract

/-- The `coordinates` dict built by `create` (testing.py lines 86-131),
fully evaluated before the crashing `Token(...)` call. -/
def createCoords (a : CreateArgs) : Coords :=
  { l1 := coordOfArg a.l1_physical
    l2 := coordOfArg a.l2_sensory
    l3 := coordOfArg a.l3_motor
    l4 := coordOfArg a.l4_emotional
    l5 := coordOfArg a.l5_cognitive
    l6 := coordOfArg a.l6_social
    l7 := coordOfArg a.l7_temporal
    l8 := coordOfArg a.l8_abstract }

/-- The `AttributeError` raised by `datetime.now(datetime.UTC)` at
testing.py line 142: `testing.py` imports the `datetime` class
(`from datetime import datetime`), and the class has no `UTC` attribute
(`UTC` is a module-level alias). -/
def datetimeUTCError : ApiErr :=
  .attributeError "type object datetime.datetime has no attribute UTC"

/-- MockTokensClient.create: allocate `token_id` from the counter and bump
the counter (lines 82-83), build the coordinates dict (lines 86-131), then
evaluate the `Token(...)` keyword arguments: at
`timestamp=int(datetime.now(datetime.UTC).timestamp())` (line 142) the
`datetime` class has no `UTC` attribute, so every call raises
`AttributeError` — no token is ever constructed, stored or returned, and
only the counter increment persists. -/
def create (st : ClientState) (_a : CreateArgs) : Except ApiErr Token × ClientState :=
  (.error datetimeUTCError,
   { st with next_token_id := st.next_token_id + 1 })

/-- The `NotFoundError(f"Token ◄id► not found", "TOKEN_NOT_FOUND")` value. -/
def tokenNotFound (token_id : Nat) : ApiErr :=
  .notFound ("Token " ++ toString token_id ++ " not found") "TOKEN_NOT_FOUND"

/-- MockTokensClient.get: raise `NotFoundError` when the id is not a key of
the store, otherwise return the stored token. `get` performs no writes. -/
def get (st : ClientState) (token_id : Nat) : Except ApiErr Token :=
  match storeGet st.tokens_store token_id with
  | none => .error (tokenNotFound token_id)
  | some t => .ok t

/-- MockTokensClient.list: `list(store.values())[offset : offset + limit]`;
for non-negative `offset` and `limit` the Python slice is drop-then-take. -/
def listTokens (st : ClientState) (limit : Nat := 100) (offset : Nat := 0) : List Token :=
  ((storeValues st.tokens_store).drop offset).take limit

/-- Arguments of `MockTokensClient.update`, with the source's defaults
(`None` everywhere: nothing supplied). -/
structure UpdateArgs where
  weight : Option ℚ := none
  field_radius : Option ℚ := none
  field_strength : Option ℚ := none
  l1_physical : Option (List (String × ℚ)) := none
  l2_sensory : Option (List (String × ℚ)) := none
  l3_motor : Option (List (String × ℚ)) := none
  l4_emotional : Option (List (String × ℚ)) := none
  l5_cognitive : Option (List (String × ℚ)) := none
  l6_social : Option (List (String × ℚ)) := none
  l7_temporal : Option (List (String × ℚ)) := none
  l8_abstract : Option (List (String × ℚ)) := none
deriving Repr

/-- The layer argument of `update` for a given layer. -/
def UpdateArgs.layerArg (u : UpdateArgs) : Layer → Option (List (String × ℚ))
  | .L1 => u.l1_physical
  | .L2 => u.l2_sensory
  | .L3 => u.l3_motor
  | .L4 => u.l4_emotional
  | .L5 => u.l5_cognitive
  | .L6 => u.l6_social
  | .L7 => u.l7_temporal
  | .L8 => u.l8_abstract

/-- The `update` statement `if d: token.coordinates["Lk"] = [...]`: a
supplied non-empty dict replaces the layer's vector; `None` and the empty
dict (both falsy) leave the layer unchanged. -/
def layerMerge (arg : Option (List (String × ℚ))) (old : Option Vec3) : Option Vec3 :=
  match arg with
  | none => old
  | some d => if d.isEmpty then old else some (vecOfDict d)

/-- The body of `update` after the initial `self.get`: overwrite each
scalar attribute that is not `None` (`if weight is not None: ...`), then
each truthily-supplied coordinate layer. -/
def applyUpdate (token : Token) (u : UpdateArgs) : Token :=
  let token :=
    { token with
      weight := u.weight.getD token.weight
      field_radius := u.field_radius.getD token.field_radius
      field_strength := u.field_strength.getD token.field_strength }
  { token with
    coordinates :=
      { l1 := layerMerge u.l1_physical token.coordinates.l1
        l2 := layerMerge u.l2_sensory token.coordinates.l2
        l3 := layerMerge u.l3_motor token.coordinates.l3
        l4 := layerMerge u.l4_emotional token.coordinates.l4
        l5 := layerMerge u.l5_cognitive token.coordinates.l5
        l6 := layerMerge u.l6_social token.coordinates.l6
        l7 := layerMerge u.l7_temporal token.coordinates.l7
        l8 := layerMerge u.l8_abstract token.coordinates.l8 } }

/-- MockTokensClient.update: `self.get(token_id)` (raising `NotFoundError`
before any write when the id is absent), then `applyUpdate`, then store the
token back under its key. -/
def update (st : ClientState) (token_id : Nat) (u : UpdateArgs) :
    Except ApiErr Token × ClientState :=
  match get st token_id with
  | .error e => (.error e, st)
  | .ok token =>
    (.ok (applyUpdate token u),
     { st with tokens_store := storeSet st.tokens_store token_id (applyUpdate token u) })

/-- MockTokensClient.delete: raise `NotFoundError` when the id is not a key
of the store (before any write), otherwise delete the entry and return
`True`. -/
def delete (st : ClientState) (token_id : Nat) :
    Except ApiErr Bool × ClientState :=
  if (storeGet st.tokens_store token_id).isSome then
    (.ok true, { st with tokens_store := storeDel st.tokens_store token_id })
  else
    (.error (tokenNotFound token_id), st)

/-- The result record built for one token in `query`. -/
def mkQueryResult (t : Token) (similarity : ℚ) : TokenQueryResult :=
  { token_id := some t.id
    label := "token_" ++ toString t.id
    score := similarity
    entity_type := "Concept"
    coordinates := some t.coordinates }

/-- The result-gathering loop of `query`: for the token at iteration index
`i` the similarity is `sim i` (the source draws `random.uniform(0.7, 1.0)`;
the draw is abstracted as the oracle `sim`); the token contributes a result
when `threshold is None or similarity >= threshold`. -/
def queryResults (sim : Nat → ℚ) (threshold : Option ℚ) :
    Nat → List Token → List TokenQueryResult
  | _, [] => []
  | i, t :: ts =>
    if threshold.all (fun th => decide (th ≤ sim i)) then
      mkQueryResult t (sim i) :: queryResults sim threshold (i + 1) ts
    else
      queryResults sim threshold (i + 1) ts

/-- MockTokensClient.query: truncate the value list to `limit`, gather
results above the threshold, then sort by score descending
(`results.sort(key=..., reverse=True)`). -/
def query (st : ClientState) (sim : Nat → ℚ) (limit : Nat := 10)
    (threshold : Option ℚ := some 0) : List TokenQueryResult :=
  (queryResults sim threshold 0 ((storeValues st.tokens_store).take limit)).mergeSort
    (fun a b => decide (b.score ≤ a.score))

/-- Modelled from the spec: the Identity Codec's `pack` is not part of the
source tree (the client only declares the field widths in the `Token`
model's descriptions); spec section 4.1: entity_type in the top 4 bits of a
32-bit id, domain in the next 4 bits, local_id in the low 24 bits, failing
with `InvalidRange` if entity_type > 15, domain > 15, or local_id exceeds
the 24-bit range. -/
def pack (entity_type domain local_id : Nat) : Except ApiErr Nat :=
  if entity_type > 15 ∨ domain > 15 ∨ local_id > 2 ^ 24 - 1 then
    .error (.invalidRange "identity component out of range")
  else
    .ok (entity_type * 2 ^ 28 + domain * 2 ^ 24 + local_id)

/-- Modelled from the spec: the Identity Codec's `unpack`, the inverse bit
extraction for the layout of `pack`. -/
def unpack (id : Nat) : Nat × Nat × Nat :=
  (id / 2 ^ 28 % 16, id / 2 ^ 24 % 16, id % 2 ^ 24)

/-- One observable state transition of the client: any call to one of the
three mutating operations (`get`, `list` and `query` never write). Failed
calls are included: a failed `update` or `delete` steps to the unchanged
state, and `create` (which always fails) steps to the state with only the
counter incremented. -/
inductive Step : ClientState → ClientState → Prop where
  | ofCreate (st : ClientState) (a : CreateArgs) :
      Step st (create st a).2
  | ofUpdate (st : ClientState) (token_id : Nat) (u : UpdateArgs) :
      Step st (update st token_id u).2
  | ofDelete (st : ClientState) (token_id : Nat) :
      Step st (delete st token_id).2

/-- A concrete token value (fields shaped like the `Token` model with the
source's create defaults) used to instantiate the state-generic theorems at
a non-empty store: `update`, `get`, `delete`, `list` and `query` operate on
whatever the store holds, and the theorems below quantify over arbitrary
store states. -/
def tok0 : Token :=
  { id := 1
    id_hex := hex08X 1
    local_id := 1
    entity_type := 0
    domain := 0
    weight := 1 / 2
    field_radius := 1
    field_strength := 1
    timestamp := 0
    age_seconds := 0
    flags_active := true
    flags_persistent := false
    coordinates := ⟨none, none, none, none, none, none, none, none⟩ }

/-- A concrete client state holding `tok0` under key 1. -/
def stA : ClientState := ⟨[(1, tok0)], 2⟩

/-- A concrete token like `tok0` whose L1 layer holds a vector. -/
def tokC : Token :=
  { tok0 with
    coordinates := ⟨some (vecOfDict [("x", 1)]), none, none, none, none, none, none, none⟩ }

/-- A concrete client state holding `tokC` under key 1. -/
def stC : ClientState := ⟨[(1, tokC)], 2⟩

theorem find?_map_overwrite (s : Store) (k : Nat) (v : Token) :
    s.any (fun p => p.1 == k) = true →
    (s.map (fun p => if p.1 == k then (k, v) else p)).find? (fun p => p.1 == k)
      = some (k, v) := by
  intro h
  induction s with
  | nil => simp at h
  | cons p s ih =>
    by_cases hp : p.1 = k
    · simp [List.find?, hp]
    · have hne : (p.1 == k) = false := by simp [hp]
      have hs : s.any (fun p => p.1 == k) = true := by
        simpa [List.any_cons, hne] using h
      simpa [List.find?, hne] using ih hs

theorem find?_append_fresh (s : Store) (k : Nat) (v : Token) :
    s.any (fun p => p.1 == k) = false →
    (s ++ [(k, v)]).find? (fun p => p.1 == k) = some (k, v) := by
  intro h
  induction s with
  | nil => simp [List.find?]
  | cons p s ih =>
    have hne : (p.1 == k) = false := by
      have h' := List.any_eq_false.mp h p (List.mem_cons_self p s)
      simpa using h'
    have hs : s.any (fun p => p.1 == k) = false := by
      apply List.any_eq_false.mpr
      intro q hq
      exact List.any_eq_false.mp h q (List.mem_cons_of_mem p hq)
    simpa [List.find?, hne] using ih hs

theorem storeGet_storeSet_self (s : Store) (k : Nat) (v : Token) :
    storeGet (storeSet s k v) k = some v := by
  unfold storeGet storeSet
  by_cases h : s.any (fun p => p.1 == k) = true
  · rw [if_pos h, find?_map_overwrite s k v h]
  · rw [if_neg h, find?_append_fresh s k v (Bool.eq_false_iff.mpr h)]

theorem storeGet_storeDel_self (s : Store) (k : Nat) :
    storeGet (storeDel s k) k = none := by
  unfold storeGet storeDel
  induction s with
  | nil => simp [List.find?]
  | cons p s ih =>
    by_cases hp : p.1 = k
    · simpa [List.filter, hp] using ih
    · have hne : (p.1 == k) = false := by simp [hp]
      simpa [List.filter, hne, List.find?] using ih

theorem storeGet_mem (s : Store) (k : Nat) (t : Token) :
    storeGet s k = some t → (k, t) ∈ s := by
  intro h
  unfold storeGet at h
  cases hf : s.find? (fun p => p.1 == k) with
  | none => rw [hf] at h; exact absurd h (by simp)
  | some p =>
    rw [hf] at h
    have hmem := List.mem_of_find?_eq_some hf
    have hk : p.1 = k := by simpa using List.find?_some hf
    have ht : p.2 = t := by simpa using h
    have : p = (k, t) := Prod.ext hk ht
    rwa [this] at hmem

theorem storeGet_eq_none_of_not_mem (s : Store) (k : Nat)
    (h : ∀ p ∈ s, p.1 ≠ k) : storeGet s k = none := by
  unfold storeGet
  cases hf : s.find? (fun p => p.1 == k) with
  | none => rfl
  | some p =>
    have hk : p.1 = k := by simpa using List.find?_some hf
    exact absurd hk (h p (List.mem_of_find?_eq_some hf))

theorem get_ok_iff (st : ClientState) (k : Nat) (t : Token) :
    get st k = .ok t ↔ storeGet st.tokens_store k = some t := by
  unfold get
  cases storeGet st.tokens_store k <;> simp

theorem get_error_iff (st : ClientState) (k : Nat) (e : ApiErr) :
    get st k = .error e ↔ storeGet st.tokens_store k = none ∧ e = tokenNotFound k := by
  unfold get
  cases storeGet st.tokens_store k <;> simp [eq_comm]

theorem update_of_get_error (st : ClientState) (k : Nat) (u : UpdateArgs) (e : ApiErr)
    (hg : get st k = .error e) : update st k u = (.error e, st) := by
  unfold update
  rw [hg]

theorem update_of_get_ok (st : ClientState) (k : Nat) (u : UpdateArgs) (t : Token)
    (hg : get st k = .ok t) :
    update st k u =
      (.ok (applyUpdate t u),
       { st with tokens_store := storeSet st.tokens_store k (applyUpdate t u) }) := by
  unfold update
  rw [hg]

theorem applyUpdate_id (t : Token) (u : UpdateArgs) : (applyUpdate t u).id = t.id := rfl

theorem applyUpdate_layer (t : Token) (u : UpdateArgs) (L : Layer) :
    (applyUpdate t u).coordinates.layer L = layerMerge (u.layerArg L) (t.coordinates.layer L) := by
  cases L <;> rfl

theorem applyUpdate_scalars (t : Token) (u : UpdateArgs) :
    (applyUpdate t u).weight = u.weight.getD t.weight ∧
    (applyUpdate t u).field_radius = u.field_radius.getD t.field_radius ∧
    (applyUpdate t u).field_strength = u.field_strength.getD t.field_strength :=
  ⟨rfl, rfl, rfl⟩

theorem next_mono_step (st st' : ClientState) (hs : Step st st') :
    st.next_token_id ≤ st'.next_token_id := by
  cases hs with
  | ofCreate a => exact Nat.le_succ _
  | ofUpdate k u =>
    cases hg : get st k with
    | error e => rw [update_of_get_error st k u e hg]
    | ok t => rw [update_of_get_ok st k u t hg]
  | ofDelete k =>
    unfold delete
    by_cases hc : (storeGet st.tokens_store k).isSome
    · rw [if_pos hc]
    · rw [if_neg hc]

theorem next_mono_star (st st' : ClientState)
    (h : Relation.ReflTransGen Step st st') :
    st.next_token_id ≤ st'.next_token_id := by
  induction h with
  | refl => exact Nat.le_refl _
  | tail _ hstep ih => exact Nat.le_trans ih (next_mono_step _ _ hstep)

/-- C1 (code_bug): the spec-modelled codec round-trips — `unpack` inverts
`pack` on every valid (entity_type ≤ 15, domain ≤ 15, local_id ≤ 2^24 − 1)
triple — but the mock `create` can never exhibit the claimed decode
property of returned ids: every `create` call raises `AttributeError`
(`datetime.now(datetime.UTC)`, testing.py line 142) after bumping the
counter, so it never returns a token; at the failing input (entity_type 1
on a fresh client) the call yields the `AttributeError` and only the
counter increment. -/
theorem C1_pack_roundtrip_create_crashes (et d lid : Nat)
    (h1 : et ≤ 15) (h2 : d ≤ 15) (h3 : lid ≤ 2 ^ 24 - 1) :
    pack et d lid = .ok (et * 2 ^ 28 + d * 2 ^ 24 + lid) ∧
    unpack (et * 2 ^ 28 + d * 2 ^ 24 + lid) = (et, d, lid) ∧
    (∀ (st : ClientState) (a : CreateArgs) (t : Token), (create st a).1 ≠ .ok t) ∧
    create initialState { entity_type := 1 } = (.error datetimeUTCError, ⟨[], 2⟩) := by
  refine ⟨?_, ?_, ?_, rfl⟩
  · unfold pack
    rw [if_neg]
    push_neg
    exact ⟨h1, h2, h3⟩
  · unfold unpack
    refine Prod.ext ?_ (Prod.ext ?_ ?_) <;> simp only <;> omega
  · intro st a t hc
    simp [create] at hc

/-- Witness for C1 at the concrete triple (3, 5, 7) and the failing create
call. -/
theorem C1_witness :
    pack 3 5 7 = .ok (3 * 2 ^ 28 + 5 * 2 ^ 24 + 7) ∧
    unpack (3 * 2 ^ 28 + 5 * 2 ^ 24 + 7) = (3, 5, 7) ∧
    create initialState { entity_type := 1 } = (.error datetimeUTCError, ⟨[], 2⟩) :=
  ⟨(C1_pack_roundtrip_create_crashes 3 5 7 (by decide) (by decide) (by decide)).1,
   (C1_pack_roundtrip_create_crashes 3 5 7 (by decide) (by decide) (by decide)).2.1,
   (C1_pack_roundtrip_create_crashes 3 5 7 (by decide) (by decide) (by decide)).2.2.2⟩

/-- C2 (code_bug): the create call of the claim's scenario (L1 dict with
x = y = z = 0, L2 unset) never stores a token: it raises `AttributeError`
at the `Token(...)` call (`datetime.now(datetime.UTC)`, testing.py line
142), leaving the store untouched, so `get` afterwards behaves exactly as
before the call; the `coordinates` dict the call builds just before
crashing does hold L1 present as the zero vector and L2 absent, so the
absence/zero distinction is correctly prepared and the crash is the only
obstruction to the claimed outcome. -/
theorem C2_create_crashes_absence_zero (st : ClientState) :
    (create st { l1_physical := some [("x", 0), ("y", 0), ("z", 0)] }).1
      = .error datetimeUTCError ∧
    (create st { l1_physical := some [("x", 0), ("y", 0), ("z", 0)] }).2.tokens_store
      = st.tokens_store ∧
    (∀ k, get (create st { l1_physical := some [("x", 0), ("y", 0), ("z", 0)] }).2 k
      = get st k) ∧
    (createCoords { l1_physical := some [("x", 0), ("y", 0), ("z", 0)] }).layer .L1
      = some ⟨0, 0, 0⟩ ∧
    (createCoords { l1_physical := some [("x", 0), ("y", 0), ("z", 0)] }).layer .L2
      = none := by
  refine ⟨rfl, rfl, fun k => rfl, ?_, rfl⟩
  show coordOfArg (some [("x", 0), ("y", 0), ("z", 0)]) = some ⟨0, 0, 0⟩
  decide

/-- C5 (confirmed): `get` and `delete` raise `NotFoundError` exactly on
absent ids; `delete` on a present id removes the record and returns True,
after which `get` on that id raises `NotFoundError`. -/
theorem C5_notfound_semantics (st : ClientState) (token_id : Nat) :
    (storeGet st.tokens_store token_id = none →
      get st token_id = .error (tokenNotFound token_id) ∧
      delete st token_id = (.error (tokenNotFound token_id), st)) ∧
    (∀ t, storeGet st.tokens_store token_id = some t →
      (delete st token_id).1 = .ok true ∧
      storeGet (delete st token_id).2.tokens_store token_id = none ∧
      get (delete st token_id).2 token_id = .error (tokenNotFound token_id)) := by
  constructor
  · intro h
    constructor
    · unfold get
      rw [h]
    · unfold delete
      rw [if_neg (by rw [h]; simp)]
  · intro t h
    have hd : delete st token_id
        = (.ok true, { st with tokens_store := storeDel st.tokens_store token_id }) := by
      unfold delete
      rw [if_pos (by rw [h]; rfl)]
    rw [hd]
    refine ⟨rfl, ?_, ?_⟩
    · exact storeGet_storeDel_self _ _
    · unfold get
      rw [show storeGet (storeDel st.tokens_store token_id) token_id = none from
            storeGet_storeDel_self _ _]

/-- Witness for C5: on the one-token state `stA`, `get 2` raises
`NotFoundError` and `delete 1` succeeds, after which `get 1` raises. -/
theorem C5_witness :
    get stA 2 = .error (tokenNotFound 2) ∧
    (delete stA 1).1 = .ok true ∧
    get (delete stA 1).2 1 = .error (tokenNotFound 1) :=
  ⟨((C5_notfound_semantics stA 2).1 rfl).1,
   ((C5_notfound_semantics stA 1).2 tok0 rfl).1,
   ((C5_notfound_semantics stA 1).2 tok0 rfl).2.2⟩

/-- C8 (confirmed): a failing `update` or `delete` leaves the whole client
state (token dict and id counter) exactly as it was; `get` performs no
writes (it does not take or produce a state), and `create` never raises a
structural error — its unconditional `AttributeError` is not one of the
claim's structural error kinds (`NotFound`, `OutOfRange`) — so no
structural error ever causes a partial write. -/
theorem C8_errors_leave_state (st : ClientState) (token_id : Nat) (u : UpdateArgs) :
    (∀ e, (update st token_id u).1 = .error e → (update st token_id u).2 = st) ∧
    (∀ e, (delete st token_id).1 = .error e → (delete st token_id).2 = st) := by
  constructor
  · intro e he
    cases hg : get st token_id with
    | error e' => rw [update_of_get_error st token_id u e' hg]
    | ok t =>
      rw [update_of_get_ok st token_id u t hg] at he
      exact absurd he (by simp)
  · intro e he
    unfold delete at he ⊢
    by_cases hc : (storeGet st.tokens_store token_id).isSome = true
    · rw [if_pos hc] at he
      exact absurd he (by simp)
    · rw [if_neg hc]

/-- Witness for C8: failing `update` and `delete` on the fresh client leave
it at `initialState`. -/
theorem C8_witness :
    (update initialState 1 {}).2 = initialState ∧
    (delete initialState 1).2 = initialState :=
  ⟨(C8_errors_leave_state initialState 1 {}).1 (tokenNotFound 1) rfl,
   (C8_errors_leave_state initialState 1 {}).2 (tokenNotFound 1) rfl⟩

/-- C3 (confirmed): `update` is a partial merge — it succeeds on a stored
token, stores the merged token back under the same id, every coordinate
layer whose argument is omitted (`None`) keeps its prior value, every layer
supplied as a non-empty dict is replaced by that dict's vector, and an
update supplying no layer at all (for example one supplying only `weight`)
leaves the whole coordinates mapping exactly as it was. -/
theorem C3_update_partial_merge (st : ClientState) (token_id : Nat)
    (u : UpdateArgs) (t : Token)
    (hget : get st token_id = .ok t) :
    (update st token_id u).1 = .ok (applyUpdate t u) ∧
    storeGet (update st token_id u).2.tokens_store token_id = some (applyUpdate t u) ∧
    (∀ L, u.layerArg L = none →
      (applyUpdate t u).coordinates.layer L = t.coordinates.layer L) ∧
    (∀ L d, u.layerArg L = some d → d.isEmpty = false →
      (applyUpdate t u).coordinates.layer L = some (vecOfDict d)) ∧
    ((∀ L, u.layerArg L = none) → (applyUpdate t u).coordinates = t.coordinates) := by
  rw [update_of_get_ok st token_id u t hget]
  refine ⟨rfl, storeGet_storeSet_self _ _ _, ?_, ?_, ?_⟩
  · intro L hL
    rw [applyUpdate_layer, hL]
    rfl
  · intro L d hL hne
    rw [applyUpdate_layer, hL]
    simp [layerMerge, hne]
  · intro hall
    have e1 : u.l1_physical = none := hall .L1
    have e2 : u.l2_sensory = none := hall .L2
    have e3 : u.l3_motor = none := hall .L3
    have e4 : u.l4_emotional = none := hall .L4
    have e5 : u.l5_cognitive = none := hall .L5
    have e6 : u.l6_social = none := hall .L6
    have e7 : u.l7_temporal = none := hall .L7
    have e8 : u.l8_abstract = none := hall .L8
    unfold applyUpdate
    rw [e1, e2, e3, e4, e5, e6, e7, e8]
    show (⟨layerMerge none t.coordinates.l1, layerMerge none t.coordinates.l2,
           layerMerge none t.coordinates.l3, layerMerge none t.coordinates.l4,
           layerMerge none t.coordinates.l5, layerMerge none t.coordinates.l6,
           layerMerge none t.coordinates.l7, layerMerge none t.coordinates.l8⟩ : Coords)
        = t.coordinates
    unfold layerMerge
    rfl

/-- Witness for C3: updating only the weight of the token stored in `stA`
succeeds and leaves its coordinates mapping unchanged. -/
theorem C3_witness :
    (update stA 1 { weight := some 1 }).1 = .ok (applyUpdate tok0 { weight := some 1 }) ∧
    (applyUpdate tok0 { weight := some 1 }).coordinates = tok0.coordinates :=
  ⟨(C3_update_partial_merge stA 1 { weight := some 1 } tok0 rfl).1,
   (C3_update_partial_merge stA 1 { weight := some 1 } tok0 rfl).2.2.2.2
     (fun L => by cases L <;> rfl)⟩

/-- Counterexample to C4 as stated: on the one-token state `stA`, the
update supplying weight 5 (outside [0, 1]) does not fail with `OutOfRange`
— it succeeds, and the token now held in the store has weight 5, so the
claimed store invariant fails after a create followed by an update. -/
theorem C4_counterexample :
    (update stA 1 { weight := some 5 }).1
      = .ok (applyUpdate tok0 { weight := some 5 }) ∧
    storeGet (update stA 1 { weight := some 5 }).2.tokens_store 1
      = some (applyUpdate tok0 { weight := some 5 }) ∧
    (applyUpdate tok0 { weight := some 5 }).weight = 5 ∧
    ¬ (applyUpdate tok0 { weight := some 5 }).weight ≤ 1 := by
  refine ⟨rfl, ?_, rfl, ?_⟩
  · rw [update_of_get_ok stA 1 { weight := some 5 } tok0 rfl]
    show storeGet (storeSet stA.tokens_store 1 (applyUpdate tok0 { weight := some 5 })) 1
        = some (applyUpdate tok0 { weight := some 5 })
    exact storeGet_storeSet_self _ _ _
  · show ¬ (5 : ℚ) ≤ 1
    norm_num

/-- C4 (corrected): the `TokenUpdate` request model declares the bounds
weight, field_strength ∈ [0, 1] and field_radius ∈ [0, 2.55], but
`MockTokensClient.update` performs no range validation: on any stored
token it succeeds for every supplied attribute value, never raising
`OutOfRange`, and stores the supplied values verbatim — so out-of-range
attributes can enter and remain in the store. -/
theorem C4_update_unvalidated (st : ClientState) (token_id : Nat)
    (u : UpdateArgs) (t : Token)
    (hget : get st token_id = .ok t) :
    (update st token_id u).1 = .ok (applyUpdate t u) ∧
    storeGet (update st token_id u).2.tokens_store token_id = some (applyUpdate t u) ∧
    (applyUpdate t u).weight = u.weight.getD t.weight ∧
    (applyUpdate t u).field_radius = u.field_radius.getD t.field_radius ∧
    (applyUpdate t u).field_strength = u.field_strength.getD t.field_strength := by
  rw [update_of_get_ok st token_id u t hget]
  exact ⟨rfl, storeGet_storeSet_self _ _ _, rfl, rfl, rfl⟩

/-- Witness for C4 (amended): the weight-5 update on `stA` succeeds and the
merged token carries weight 5. -/
theorem C4_witness :
    (update stA 1 { weight := some 5 }).1 = .ok (applyUpdate tok0 { weight := some 5 }) ∧
    (applyUpdate tok0 { weight := some 5 }).weight
      = (some (5 : ℚ)).getD tok0.weight :=
  ⟨(C4_update_unvalidated stA 1 { weight := some 5 } tok0 rfl).1,
   (C4_update_unvalidated stA 1 { weight := some 5 } tok0 rfl).2.2.1⟩

/-- C9 (confirmed): no `update` can make a present coordinate layer absent:
a layer holding a vector before a successful update holds a vector after
it, and a layer supplied as the empty dict is treated exactly like an
omitted layer (left unchanged). -/
theorem C9_layers_never_cleared (st : ClientState) (token_id : Nat)
    (u : UpdateArgs) (t t' : Token)
    (hget : get st token_id = .ok t)
    (hok : (update st token_id u).1 = .ok t') :
    (∀ L v, t.coordinates.layer L = some v → ∃ w, t'.coordinates.layer L = some w) ∧
    (∀ L, u.layerArg L = some [] → t'.coordinates.layer L = t.coordinates.layer L) := by
  have ht' : t' = applyUpdate t u := by
    rw [update_of_get_ok st token_id u t hget] at hok
    simpa using hok.symm
  subst ht'
  constructor
  · intro L v hv
    rw [applyUpdate_layer]
    cases harg : u.layerArg L with
    | none =>
      exact ⟨v, by rw [show layerMerge none (t.coordinates.layer L) = t.coordinates.layer L from rfl, hv]⟩
    | some d =>
      by_cases hd : d.isEmpty
      · exact ⟨v, by simp [layerMerge, hd, hv]⟩
      · exact ⟨vecOfDict d, by simp [layerMerge, hd]⟩
  · intro L hL
    rw [applyUpdate_layer, hL]
    rfl

/-- Witness for C9: updating the token of `stC` (which holds an L1 vector)
with an empty L1 dict keeps L1 present and unchanged. -/
theorem C9_witness :
    (∃ w, (applyUpdate tokC { l1_physical := some [] }).coordinates.layer .L1 = some w) ∧
    (applyUpdate tokC { l1_physical := some [] }).coordinates.layer .L1
      = tokC.coordinates.layer .L1 :=
  ⟨(C9_layers_never_cleared stC 1 { l1_physical := some [] } tokC
      (applyUpdate tokC { l1_physical := some [] }) rfl rfl).1 .L1
      (vecOfDict [("x", 1)]) rfl,
   (C9_layers_never_cleared stC 1 { l1_physical := some [] } tokC
      (applyUpdate tokC { l1_physical := some [] }) rfl rfl).2 .L1 rfl⟩

/-- C7 (code_bug): the claim speaks of ids assigned by successful creates,
but no `create` ever succeeds — every call raises `AttributeError`
(testing.py line 142) after incrementing `_next_token_id` (lines 82-83).
The id-allocation substance still holds for the counter the code does
maintain: each `create` call reads the counter as its `token_id` and bumps
it, the counter never decreases under any later operation, so the value a
later `create` call allocates is strictly greater than the value any
earlier `create` call allocated, and no allocated id is ever reused. -/
theorem C7_create_crashes_ids_monotone (st st' : ClientState) (a : CreateArgs)
    (h : Relation.ReflTransGen Step (create st a).2 st') :
    (∀ t, (create st a).1 ≠ .ok t) ∧
    (create st a).2.next_token_id = st.next_token_id + 1 ∧
    st.next_token_id < st'.next_token_id := by
  refine ⟨?_, rfl, ?_⟩
  · intro t hc
    simp [create] at hc
  · have h1 : st.next_token_id + 1 ≤ st'.next_token_id := next_mono_star _ _ h
    omega

/-- Witness for C7: the first create call on a fresh client fails yet
allocates id 1 and leaves the counter at 2. -/
theorem C7_witness :
    (∀ t, (create initialState {}).1 ≠ .ok t) ∧
    initialState.next_token_id < (create initialState {}).2.next_token_id :=
  ⟨(C7_create_crashes_ids_monotone initialState (create initialState {}).2 {}
      Relation.ReflTransGen.refl).1,
   (C7_create_crashes_ids_monotone initialState (create initialState {}).2 {}
      Relation.ReflTransGen.refl).2.2⟩

/-- C6 (confirmed): for every store state, `list` returns the contiguous
slice of the store's insertion-ordered value sequence (the order in which
tokens entered the store, i.e. creation order) starting at `offset`: it
holds at most `limit` tokens, its i-th entry is the (offset + i)-th stored
value, and two adjacent pages concatenate exactly to the larger page, so no
token is ever split or duplicated across a page boundary. -/
theorem C6_list_pagination (st : ClientState) (limit offset extra : Nat) :
    (listTokens st limit offset).length ≤ limit ∧
    (∀ i : Nat, i < limit →
      (listTokens st limit offset)[i]? = (storeValues st.tokens_store)[offset + i]?) ∧
    listTokens st limit offset ++ listTokens st extra (offset + limit)
      = listTokens st (limit + extra) offset := by
  refine ⟨?_, ?_, ?_⟩
  · unfold listTokens
    rw [List.length_take]
    exact inf_le_left
  · intro i hi
    unfold listTokens
    rw [List.getElem?_take, if_pos hi]
    exact List.getElem?_drop _ _ _
  · unfold listTokens
    rw [List.take_add, ← List.drop_drop]

/-- Witness for C6 on the concrete one-token store `stA`. -/
theorem C6_witness :
    (listTokens stA 2 0).length ≤ 2 ∧
    (listTokens stA 2 0)[0]? = (storeValues stA.tokens_store)[0 + 0]? :=
  ⟨(C6_list_pagination stA 2 0 0).1,
   (C6_list_pagination stA 2 0 0).2.1 0 (by decide)⟩

theorem queryResults_length_le (sim : Nat → ℚ) (th : Option ℚ) :
    ∀ (i : Nat) (ts : List Token), (queryResults sim th i ts).length ≤ ts.length := by
  intro i ts
  induction ts generalizing i with
  | nil => exact Nat.le_refl 0
  | cons t ts ih =>
    unfold queryResults
    split
    · simpa using Nat.succ_le_succ (ih (i + 1))
    · simpa using Nat.le_succ_of_le (ih (i + 1))

theorem queryResults_token_mem (sim : Nat → ℚ) (th : Option ℚ) :
    ∀ (i : Nat) (ts : List Token) (r : TokenQueryResult),
      r ∈ queryResults sim th i ts → ∃ t ∈ ts, r.token_id = some t.id := by
  intro i ts
  induction ts generalizing i with
  | nil => intro r hr; exact absurd hr (List.not_mem_nil r)
  | cons t ts ih =>
    intro r hr
    unfold queryResults at hr
    split at hr
    · rcases List.mem_cons.mp hr with heq | hmem
      · exact ⟨t, List.mem_cons_self t ts, by rw [heq]; rfl⟩
      · obtain ⟨t', ht', hid⟩ := ih (i + 1) r hmem
        exact ⟨t', List.mem_cons_of_mem t ht', hid⟩
    · obtain ⟨t', ht', hid⟩ := ih (i + 1) r hr
      exact ⟨t', List.mem_cons_of_mem t ht', hid⟩

/-- C10 (confirmed): for every score oracle, `query` returns at most
`limit` results, their scores are non-increasing, and every result's
token_id is the id of a token currently among the stored values. -/
theorem C10_query_view (st : ClientState) (sim : Nat → ℚ) (limit : Nat)
    (threshold : Option ℚ) :
    (query st sim limit threshold).length ≤ limit ∧
    List.Pairwise (fun a b => b.score ≤ a.score) (query st sim limit threshold) ∧
    (∀ r ∈ query st sim limit threshold,
      ∃ t ∈ storeValues st.tokens_store, r.token_id = some t.id) := by
  unfold query
  refine ⟨?_, ?_, ?_⟩
  · rw [List.length_mergeSort]
    refine Nat.le_trans (queryResults_length_le sim threshold 0 _) ?_
    rw [List.length_take]
    exact inf_le_left
  · have htrans : ∀ (a b c : TokenQueryResult),
        decide (b.score ≤ a.score) = true → decide (c.score ≤ b.score) = true →
        decide (c.score ≤ a.score) = true := by
      intro a b c hab hbc
      simp only [decide_eq_true_eq] at hab hbc ⊢
      exact le_trans hbc hab
    have htotal : ∀ (a b : TokenQueryResult),
        (decide (b.score ≤ a.score) || decide (a.score ≤ b.score)) = true := by
      intro a b
      simp only [Bool.or_eq_true, decide_eq_true_eq]
      exact le_total b.score a.score
    have hs := List.sorted_mergeSort htrans htotal
        (queryResults sim threshold 0 ((storeValues st.tokens_store).take limit))
    exact hs.imp (fun hab => of_decide_eq_true hab)
  · intro r hr
    have hperm := List.mergeSort_perm
        (queryResults sim threshold 0 ((storeValues st.tokens_store).take limit))
        (fun a b => decide (b.score ≤ a.score))
    have hr' : r ∈ queryResults sim threshold 0 ((storeValues st.tokens_store).take limit) :=
      hperm.mem_iff.mp hr
    obtain ⟨t, ht, hid⟩ := queryResults_token_mem sim threshold 0 _ r hr'
    exact ⟨t, List.mem_of_mem_take ht, hid⟩

end Mock
